import Mathlib

/-!
Verification of the CS452-p2 interactive shell (src/src/lab.c, src/app/main.c)
against its natural-language specification.

Shallow embedding conventions:
* C strings are Lean `String`s; a `char **` argument vector is
  `List (Option String)` where `none` is the terminating NULL sentinel and a
  possibly-NULL `char **` pointer itself is `Option (List (Option String))`.
* Side effects (system calls, prints, process termination) are recorded as an
  explicit trace, a `List Eff`, in program order.
* OS state consulted by the code (environment variables, the password
  database, which directories `chdir` can enter, the cwd) is an explicit
  `Env` value threaded through the functions that read or change it.
-/

/-- Signal numbers as on Linux, used by the shell for job control. -/
def SIGINT : Nat := 2

/-- Signal number of SIGQUIT. -/
def SIGQUIT : Nat := 3

/-- Signal number of SIGTSTP. -/
def SIGTSTP : Nat := 20

/-- Signal number of SIGTTIN. -/
def SIGTTIN : Nat := 21

/-- Signal number of SIGTTOU. -/
def SIGTTOU : Nat := 22

/-- Observable effects of the shell code, recorded in program order. -/
inductive Eff where
  /-- `setpgid(pid, pgid)` system call. -/
  | setpgid (pid pgid : Nat)
  /-- `tcsetpgrp(fd, pgid)` system call: hand foreground terminal ownership
  of terminal `fd` to process group `pgid`. -/
  | tcsetpgrp (fd pgid : Nat)
  /-- `signal(sig, SIG_DFL)`: restore the default disposition of `sig`. -/
  | sigdfl (sig : Nat)
  /-- `signal(sig, SIG_IGN)`: ignore signal `sig`. -/
  | sigign (sig : Nat)
  /-- `kill(-pgid, sig)`: send `sig` to every process of group `pgid`. -/
  | killpg (pgid sig : Nat)
  /-- `execvp(prog, argv)`: replace the process image. -/
  | execvp (prog : String)
  /-- `exit(code)`: terminate the calling process. -/
  | exitProc (code : Nat)
  /-- blocking `waitpid` call on the foreground child. -/
  | waitpidCall (pid : Nat)
  /-- a diagnostic line printed to stderr. -/
  | printErr (msg : String)
  /-- a line printed to stdout. -/
  | printOut (msg : String)
  /-- `chdir(path)` system call. -/
  | chdirCall (path : String)
  /-- `free(sh->prompt)` inside `sh_destroy`. -/
  | freePrompt
  /-- `cmd_free(cmd)` releasing the argument vector. -/
  | cmdFree
  deriving DecidableEq, Repr

/-- The `struct shell` of lab.h, as populated by `sh_init`. -/
structure Shell where
  shell_terminal : Nat
  shell_is_interactive : Bool
  prompt : String
  shell_pgid : Nat
  deriving DecidableEq, Repr

/-- OS-level state consulted by the shell: environment variables, the
password database, which directories exist and are accessible (`chdir`
succeeds exactly on those), the current working directory, and the
readline history list. -/
structure Env where
  /-- value of `getenv("HOME")`; `none` when HOME is unset. -/
  home : Option String
  /-- `getpwuid(getuid())->pw_dir`; `none` when the lookup fails. -/
  pwHome : Option String
  /-- directories that exist and are accessible: `chdir` succeeds iff the
  path is in this list. -/
  validDirs : List String
  /-- current working directory of the process. -/
  cwd : String
  /-- readline history list, oldest first. -/
  history : List String
  deriving DecidableEq, Repr

/-- The `chdir` system call: succeeds (returns 0 and changes the cwd) iff
the path is a valid directory, otherwise returns -1 and leaves the cwd
unchanged. -/
def chdirSys (env : Env) (path : String) : Int × Env × List Eff :=
  if path ∈ env.validDirs then (0, { env with cwd := path }, [Eff.chdirCall path])
  else (-1, env, [Eff.chdirCall path])

/-- Embedding of `change_dir` (src/src/lab.c lines 75-93).

```c
int change_dir(char **dir) {
    if (dir[1] == NULL){
        char *myHome = getenv("HOME");
        if (myHome == NULL) {
            fprintf(stderr, "cd: HOME not set\n");
            return -1;
        }
        // if (!myHome) { struct passwd *pw = getpwuid(getuid());
        //                myHome = pw ? pw->pw_dir : NULL; }
        if (!myHome) { ... }   // myHome != NULL here, so this never runs
        return chdir(myHome);
    }
    return chdir(dir[1]);
}
```
The `getpwuid` fallback is guarded by `if (!myHome)` which is reached only
after the `myHome == NULL` case has already returned, so it is dead code:
the embedding reflects that `env.pwHome` is never consulted. -/
def change_dir (env : Env) (dir : List (Option String)) : Int × Env × List Eff :=
  match (dir.get? 1).getD none with
  | none =>
      match env.home with
      | none => (-1, env, [Eff.printErr "cd: HOME not set"])
      | some myHome =>
          -- source: `if (!myHome) { pw fallback }` — myHome is non-NULL in
          -- this branch, so the password-database fallback is unreachable
          chdirSys env myHome
  | some p => chdirSys env p

/-- Result of a `do_builtin` call: either the process terminated inside the
call (the `exit` builtin runs `exit(0)` and never returns), or the function
returned the given boolean to its caller. -/
inductive BuiltinOutcome where
  | exited (code : Nat)
  | ret (b : Bool)
  deriving DecidableEq, Repr

/-- Output of the `jobs` builtin: the history list, one line per entry,
prefixed with its 1-based index (`history_base` is 1 in readline). -/
def jobsOutput (history : List String) : List Eff :=
  (List.range history.length).map
    (fun i => Eff.printOut (toString (i + 1) ++ ": " ++ (history.getD i "")))

/-- Embedding of `do_builtin` (src/src/lab.c lines 187-218).

```c
bool do_builtin(struct shell *sh, char **argv) {
    if (argv == NULL || argv[0] == NULL) { return false; }
    if (strcmp(argv[0], "exit") == 0) { exit(0); }
    if (strcmp(argv[0], "cd") == 0) { return change_dir(argv) == 0; }
    if (strcmp(argv[0], "jobs") == 0) { ... print history ...; return true; }
    return false;
}
```
Returns the outcome together with the (possibly updated) OS state, the
shell struct (never written by the function), and the effect trace. -/
def do_builtin (env : Env) (sh : Shell) (argv : Option (List (Option String))) :
    BuiltinOutcome × Env × Shell × List Eff :=
  match argv with
  | none => (.ret false, env, sh, [])
  | some l =>
    match (l.get? 0).getD none with
    | none => (.ret false, env, sh, [])
    | some a0 =>
      if a0 = "exit" then
        (.exited 0, env, sh, [Eff.exitProc 0])
      else if a0 = "cd" then
        let r := change_dir env l
        (.ret (r.1 = 0), r.2.1, sh, r.2.2)
      else if a0 = "jobs" then
        (.ret true, env, sh, jobsOutput env.history)
      else
        (.ret false, env, sh, [])

/-- The dispatch decision of `main` (src/app/main.c line 68): the shell
proceeds to fork and execute a foreground child exactly when `do_builtin`
returned false (an outcome of `exited` means the process is gone and
nothing further runs). -/
def proceeds_to_fork (o : BuiltinOutcome) : Bool :=
  match o with
  | .exited _ => false
  | .ret b => !b

/-- Embedding of `sh_destroy` (src/src/lab.c lines 47-55): frees the prompt
and returns (the `exit(0)` inside it is commented out in the source). -/
def sh_destroy (_sh : Shell) : List Eff := [Eff.freePrompt]

/-- Token accumulation of the `strtok_r(line_copy, " ", &saveptr)` loop in
`cmd_parse` (src/src/lab.c lines 115-124): the delimiter set is the single
character `' '`, so a token is a maximal run of non-space characters.  The
second argument is the current partial token, reversed. -/
def splitTokens : List Char → List Char → List (List Char)
  | [], [] => []
  | [], acc => [acc.reverse]
  | c :: rest, acc =>
    if c = ' ' then
      match acc with
      | [] => splitTokens rest []
      | _ => acc.reverse :: splitTokens rest []
    else splitTokens rest (c :: acc)

/-- Embedding of `cmd_parse` (src/src/lab.c lines 100-133), parameterised by
`argMax = sysconf(_SC_ARG_MAX)`.

```c
char **cmd_parse(char const *line) {
    if (line == NULL) { return NULL; }
    char **argv = malloc(sizeof(char*) * sysconf(_SC_ARG_MAX));
    int i = 0;
    char *token = strtok_r(line_copy, " ", &saveptr);
    while (token != NULL && i < sysconf(_SC_ARG_MAX) - 1) {
        argv[i++] = strdup(token);
        token = strtok_r(NULL, " ", &saveptr);
    }
    argv[i] = NULL;
    return argv;
}
```
The while loop stores at most `argMax - 1` tokens and then writes the NULL
sentinel at index `i ≤ argMax - 1`. -/
def cmd_parse (argMax : Nat) (line : Option String) : Option (List (Option String)) :=
  match line with
  | none => none
  | some s =>
      let toks := (splitTokens s.data []).take (argMax - 1)
      some ((toks.map (fun t => some (String.mk t))) ++ [none])

/-- The C `isspace` predicate for the default locale. -/
def isspaceC (c : Char) : Bool :=
  c = ' ' || c = '\t' || c = '\n' || c = '\x0b' || c = '\x0c' || c = '\r'

/-- Embedding of `trim_white` (src/src/lab.c lines 157-179): drop leading
`isspace` characters; if nothing remains, the result is the empty string;
otherwise also drop trailing `isspace` characters. -/
def trim_white (line : Option String) : Option String :=
  match line with
  | none => none
  | some s =>
      let l := s.data.dropWhile isspaceC
      match l with
      | [] => some ""
      | _ => some (String.mk ((l.reverse.dropWhile isspaceC).reverse))

/-- Result of `parse_args`: either the `-v` flag was seen, the version line
printed and `exit(0)` called, or the function returned to `main`. -/
inductive ParseArgsResult where
  | exitedVersion
  | returned
  deriving DecidableEq, Repr

/-- Embedding of `parse_args` (src/src/lab.c lines 222-232): scan the whole
startup argument vector (including `argv[0]`) left to right; on the first
argument equal to `"-v"` print the version string and `exit(0)`.  No other
flag — in particular not `"--version"` — is examined. -/
def parse_args : List String → ParseArgsResult
  | [] => .returned
  | a :: rest => if a = "-v" then .exitedVersion else parse_args rest

/-- Result of `sh_init`: the populated `struct shell`, or fatal termination
via `exit(1)` when `setpgid` fails. -/
inductive InitResult where
  | ok (sh : Shell)
  | fatal (code : Nat)
  deriving DecidableEq, Repr

/-- Embedding of `get_prompt` (src/src/lab.c lines 62-69): the value of the
requested environment variable, or `"shell>"` when it is unset. -/
def get_prompt (envVal : Option String) : String := envVal.getD "shell>"

/-- Embedding of `sh_init` (src/src/lab.c lines 21-43).

```c
void sh_init(struct shell *sh) {
    sh->shell_terminal = STDIN_FILENO;
    sh->shell_is_interactive = isatty(sh->shell_terminal);
    sh->prompt = get_prompt("MY PROMPT");
    sh->shell_pgid = getpid();
    if (sh->shell_is_interactive) {
        while (tcgetpgrp(sh->shell_terminal) != (sh->shell_pgid = getpgrp()))
            kill(-sh->shell_pgid, SIGTTIN);
    }
    if (setpgid(sh->shell_pgid, sh->shell_pgid) < 0) { perror("setpgid"); exit(1); }
}
```
OS observations are parameters: `pid` is `getpid()`; `blocked` lists the
`getpgrp()` values seen on loop iterations where the shell was not yet in
the foreground (each such iteration sends SIGTTIN to that group);
`pgrpFinal` is the `getpgrp()` value at the final condition check, when it
equals `tcgetpgrp`; `setpgidOk` tells whether the `setpgid` call succeeds.
Note the function contains no `tcsetpgrp` call. -/
def sh_init (isattyStdin : Bool) (pid : Nat) (promptEnv : Option String)
    (blocked : List Nat) (pgrpFinal : Nat) (setpgidOk : Bool) :
    InitResult × List Eff :=
  let prompt := get_prompt promptEnv
  let pgid := if isattyStdin then pgrpFinal else pid
  let waitActs :=
    if isattyStdin then blocked.map (fun g => Eff.killpg g SIGTTIN) else []
  let sh : Shell := { shell_terminal := 0, shell_is_interactive := isattyStdin,
                      prompt := prompt, shell_pgid := pgid }
  if setpgidOk then
    (.ok sh, waitActs ++ [Eff.setpgid pgid pgid])
  else
    (.fatal 1, waitActs ++ [Eff.setpgid pgid pgid,
        Eff.printErr "setpgid", Eff.exitProc 1])

/-- The `WIFEXITED`/`WIFSIGNALED`/`WIFSTOPPED`/`WIFCONTINUED` view of a
`waitpid` status value. -/
structure WaitStatus where
  ifexited : Bool
  ifsignaled : Bool
  ifstopped : Bool
  ifcontinued : Bool
  deriving DecidableEq, Repr

/-- Embedding of `explain_waitpid` (src/app/main.c lines 14-32); the source
prints the first line when the child did NOT exit normally (the condition
is `!WIFEXITED(status)`). -/
def explain_waitpid (st : WaitStatus) : List Eff :=
  (if !st.ifexited then [Eff.printErr "Child exited with status"] else []) ++
  (if st.ifsignaled then [Eff.printErr "Child exited via signal"] else []) ++
  (if st.ifstopped then [Eff.printErr "Child stopped by"] else []) ++
  (if st.ifcontinued then [Eff.printErr "Child was resumed by delivery of SIGCONT"]
   else [])

/-- Embedding of `setup_signal_handlers` (src/app/main.c lines 35-41). -/
def setup_signal_handlers : List Eff :=
  [Eff.sigign SIGINT, Eff.sigign SIGQUIT, Eff.sigign SIGTSTP,
   Eff.sigign SIGTTIN, Eff.sigign SIGTTOU]

/-- Embedding of the child branch of `main` after `fork` returns 0
(src/app/main.c lines 72-87):

```c
pid_t child = getpid();
setpgid(child, child);
tcsetpgrp(sh.shell_terminal, child);
signal(SIGINT, SIG_DFL); signal(SIGQUIT, SIG_DFL); signal(SIGTSTP, SIG_DFL);
signal(SIGTTIN, SIG_DFL); signal(SIGTTOU, SIG_DFL);
execvp(cmd[0], cmd);
perror("execvp failed");
exit(EXIT_FAILURE);
```
`execFails` tells whether `execvp` returns (it returns only on failure; on
success the trace of this process continues in the new image). -/
def childBranch (term child : Nat) (prog : String) (execFails : Bool) : List Eff :=
  [Eff.setpgid child child, Eff.tcsetpgrp term child,
   Eff.sigdfl SIGINT, Eff.sigdfl SIGQUIT, Eff.sigdfl SIGTSTP,
   Eff.sigdfl SIGTTIN, Eff.sigdfl SIGTTOU, Eff.execvp prog] ++
  if execFails then [Eff.printErr "execvp failed", Eff.exitProc 1] else []

/-- Embedding of the parent branch of `main` after `fork` returns the child
pid (src/app/main.c lines 100-112), reached only for non-builtin commands:

```c
setpgid(pid, pid);
tcsetpgrp(sh.shell_terminal, pid);
int status;
int rval = waitpid(pid, &status, 0);
if (rval == -1) { fprintf(stderr, "Wait pid failed with -1\n");
                  explain_waitpid(status); }
cmd_free(cmd);
tcsetpgrp(sh.shell_terminal, sh.shell_pgid);
```
`waitRval` and `st` are the observed result and status of the `waitpid`
call.  The loop then frees `line` and shows the next prompt. -/
def parentBranch (term shellPgid pid : Nat) (waitRval : Int) (st : WaitStatus) :
    List Eff :=
  [Eff.setpgid pid pid, Eff.tcsetpgrp term pid, Eff.waitpidCall pid] ++
  (if waitRval = -1 then Eff.printErr "Wait pid failed with -1" :: explain_waitpid st
   else []) ++
  [Eff.cmdFree, Eff.tcsetpgrp term shellPgid]

/-- Recognizer: is this effect a `tcsetpgrp` call (to any group)? -/
def Eff.isTcset : Eff → Bool
  | .tcsetpgrp _ _ => true
  | _ => false

/-- Recognizer: is this effect a `setpgid` call? -/
def Eff.isSetpg : Eff → Bool
  | .setpgid _ _ => true
  | _ => false

/-- Recognizer: does this effect restore the default disposition of `sig`? -/
def Eff.isSigdfl (sig : Nat) : Eff → Bool
  | .sigdfl s => s = sig
  | _ => false

/-- Recognizer: is this effect an `execvp` call? -/
def Eff.isExec : Eff → Bool
  | .execvp _ => true
  | _ => false

/-- Spec-level tokenizer, written from the amended wording of the tokenizer
contract: split the line on the space character (and on no other character)
and keep the nonempty fields. -/
def spaceFields (l : List Char) : List (List Char) :=
  (l.splitOn ' ').filter (fun t => t ≠ [])

/-- Sample OS state for concrete evaluations: HOME is set, the password
database has an entry, `/home/user` and `/tmp` exist and are accessible,
the cwd is `/start`. -/
def envCdFail : Env :=
  { home := some "/home/user", pwHome := some "/home/user",
    validDirs := ["/home/user", "/tmp"], cwd := "/start", history := ["ls"] }

/-- Sample OS state in which HOME is unset while the password-database home
directory `/home/user` exists and is accessible. -/
def envHomeUnset : Env :=
  { home := none, pwHome := some "/home/user",
    validDirs := ["/home/user", "/tmp"], cwd := "/start", history := [] }

/-- Sample shell session for concrete evaluations. -/
def shDemo : Shell :=
  { shell_terminal := 0, shell_is_interactive := true, prompt := "shell>",
    shell_pgid := 42 }

/-- Claim C10: for a NULL argument vector, an empty vector, or a vector
whose first element is the NULL sentinel, `do_builtin` returns false and
leaves both the OS state and the shell session untouched, producing no
effect — an empty command is "not a builtin", not an error. -/
theorem do_builtin_empty_not_builtin (env : Env) (sh : Shell) :
    do_builtin env sh none = (.ret false, env, sh, []) ∧
    do_builtin env sh (some []) = (.ret false, env, sh, []) ∧
    ∀ rest : List (Option String),
      do_builtin env sh (some (none :: rest)) = (.ret false, env, sh, []) :=
  ⟨rfl, rfl, fun _ => rfl⟩

/-- Claim C1 (code evaluated at the failing input): when `cd` is given a
nonexistent directory, `change_dir` fails and `do_builtin` returns
`change_dir(argv) == 0`, i.e. false, so `main` proceeds to fork and exec
`"cd"` as an external command even though `"cd"` is a recognized builtin
name.  For a successful `cd` and for `jobs` the function returns true as
the claim says. -/
theorem do_builtin_cd_failure_forks :
    (do_builtin envCdFail shDemo (some [some "cd", some "/nonexistent", none])).1 =
      .ret false ∧
    proceeds_to_fork
      (do_builtin envCdFail shDemo
        (some [some "cd", some "/nonexistent", none])).1 = true ∧
    (do_builtin envCdFail shDemo (some [some "cd", some "/tmp", none])).1 =
      .ret true ∧
    (do_builtin envCdFail shDemo (some [some "jobs", none])).1 = .ret true := by
  decide

/-- Claim C4 (code evaluated at the failing input): with no path argument
and HOME unset, `change_dir` prints "cd: HOME not set" and returns -1
without consulting the password database, even though the password-database
home directory exists and is accessible (`envHomeUnset.pwHome` is
`/home/user`, which is in `validDirs`); the `getpwuid` fallback in the
source is dead code.  The remaining parts of the claim hold: with HOME set
the cwd changes to HOME, and a failing `chdir` is non-fatal and leaves the
cwd unchanged. -/
theorem change_dir_home_unset_no_passwd_fallback :
    change_dir envHomeUnset [some "cd", none] =
      (-1, envHomeUnset, [Eff.printErr "cd: HOME not set"]) ∧
    (change_dir envHomeUnset [some "cd", none]).2.1.cwd = "/start" ∧
    change_dir { envHomeUnset with home := some "/tmp" } [some "cd", none] =
      (0, { envHomeUnset with home := some "/tmp", cwd := "/tmp" },
        [Eff.chdirCall "/tmp"]) ∧
    change_dir { envHomeUnset with home := some "/tmp" }
        [some "cd", some "/nonexistent", none] =
      (-1, { envHomeUnset with home := some "/tmp" },
        [Eff.chdirCall "/nonexistent"]) := by
  decide

/-- Claim C8 (counterexample): the `exit` builtin's whole effect trace is
the `exit(0)` call; `sh_destroy`'s teardown effect (freeing the prompt)
does not occur, refuting "tears down the Session (releasing the owned
prompt memory)". -/
theorem do_builtin_exit_no_teardown :
    do_builtin envCdFail shDemo (some [some "exit", none]) =
      (.exited 0, envCdFail, shDemo, [Eff.exitProc 0]) ∧
    sh_destroy shDemo = [Eff.freePrompt] ∧
    Eff.freePrompt ∉ (do_builtin envCdFail shDemo (some [some "exit", none])).2.2.2 := by
  decide

/-- Claim C8 (amended): when the first argument is `"exit"`, `do_builtin`
immediately terminates the process with status 0 via `exit(0)` — so no
further line is read and no further prompt is shown — but performs no
Session teardown: the prompt memory is not freed and `sh_destroy` is not
invoked on this path. -/
theorem do_builtin_exit_terminates (env : Env) (sh : Shell)
    (rest : List (Option String)) :
    do_builtin env sh (some (some "exit" :: rest)) =
      (.exited 0, env, sh, [Eff.exitProc 0]) := rfl

/-- Claim C7 (counterexample): a startup argument vector containing
`"--version"` (and not `"-v"`) does not trigger the version-and-exit path:
`parse_args` returns to `main` and the read-eval loop is entered. -/
theorem parse_args_long_version_ignored :
    "--version" ∈ (["shell", "--version"] : List String) ∧
    parse_args ["shell", "--version"] = .returned ∧
    parse_args ["shell", "--version"] ≠ .exitedVersion := by
  decide

/-- Claim C7 (amended): the version-print-and-exit path is taken exactly
when some startup argument equals `"-v"`; `"--version"` is not recognized. -/
theorem parse_args_version_iff (argv : List String) :
    parse_args argv = .exitedVersion ↔ "-v" ∈ argv := by
  induction argv with
  | nil => simp [parse_args]
  | cons a rest ih =>
      by_cases hA : a = "-v"
      · simp [parse_args, hA]
      · have hA2 : ¬("-v" = a) := fun e => hA e.symm
        simp [parse_args, hA, hA2, ih]

/-- Claim C2: in the parent branch of the foreground execution controller,
whatever `waitpid` returns (success with any exit/signal/stop/continue
status, or failure with -1), the final effect before the loop shows the
next prompt is `tcsetpgrp(shell_terminal, shell_pgid)`, reassigning
foreground terminal ownership to the shell's own process group; the
`waitpid` call itself occurs earlier in the trace. -/
theorem parent_reclaims_terminal_unconditionally (term shellPgid pid : Nat)
    (waitRval : Int) (st : WaitStatus) :
    (parentBranch term shellPgid pid waitRval st).getLast? =
      some (Eff.tcsetpgrp term shellPgid) ∧
    Eff.waitpidCall pid ∈ parentBranch term shellPgid pid waitRval st := by
  constructor
  · rw [parentBranch, List.getLast?_append_of_ne_nil]
    · rfl
    · simp
  · simp [parentBranch]

/-- Claim C3: `sh_init` contains no `tcsetpgrp` call at all — for every
combination of interactivity, pids, observed process groups and `setpgid`
result, its effect trace has no foreground-terminal-ownership transfer
(refuting "takes foreground terminal ownership ... before returning"),
while the `setpgid` call the claim describes is present. -/
theorem sh_init_no_tcsetpgrp (isattyStdin : Bool) (pid : Nat)
    (promptEnv : Option String) (blocked : List Nat) (pgrpFinal : Nat)
    (setpgidOk : Bool) :
    ((sh_init isattyStdin pid promptEnv blocked pgrpFinal setpgidOk).2.all
      (fun a => !a.isTcset)) = true ∧
    ((sh_init isattyStdin pid promptEnv blocked pgrpFinal setpgidOk).2.any
      Eff.isSetpg) = true := by
  cases setpgidOk <;> cases isattyStdin <;>
    simp [sh_init, Eff.isTcset, Eff.isSetpg, List.all_eq_true, List.mem_map]

/-- Claim C5 (counterexample): in the child branch the very first action
after fork is `setpgid(child, child)` — not a signal restoration — and the
restoration of SIGINT comes strictly after it, refuting "the first actions
are to restore the default disposition of the five suppressed signals". -/
theorem child_branch_signals_not_first :
    (childBranch 0 42 "ls" false).head? = some (Eff.setpgid 42 42) ∧
    (childBranch 0 42 "ls" false).findIdx Eff.isSetpg <
      (childBranch 0 42 "ls" false).findIdx (Eff.isSigdfl SIGINT) := by
  decide

/-- Claim C5 (amended): in the child branch after fork, the child first
makes itself its own process-group leader (position 0) and requests
foreground terminal ownership (position 1), then restores the default
disposition of the five suppressed job-control signals in the order SIGINT,
SIGQUIT, SIGTSTP, SIGTTIN, SIGTTOU (positions 2-6), and finally replaces
its image with the requested command (position 7). -/
theorem child_branch_order (term child : Nat) (prog : String) (ef : Bool) :
    (childBranch term child prog ef).findIdx Eff.isSetpg = 0 ∧
    (childBranch term child prog ef).findIdx Eff.isTcset = 1 ∧
    (childBranch term child prog ef).findIdx (Eff.isSigdfl SIGINT) = 2 ∧
    (childBranch term child prog ef).findIdx (Eff.isSigdfl SIGQUIT) = 3 ∧
    (childBranch term child prog ef).findIdx (Eff.isSigdfl SIGTSTP) = 4 ∧
    (childBranch term child prog ef).findIdx (Eff.isSigdfl SIGTTIN) = 5 ∧
    (childBranch term child prog ef).findIdx (Eff.isSigdfl SIGTTOU) = 6 ∧
    (childBranch term child prog ef).findIdx Eff.isExec = 7 :=
  ⟨rfl, rfl, rfl, rfl, rfl, rfl, rfl, rfl⟩

/-- Auxiliary characterization of the strtok loop of `cmd_parse`: with a
pending (reversed) partial token `acc`, `splitTokens` computes the nonempty
fields of the space-split of the input, the first field extended on the
left by the pending token. -/
theorem splitTokens_eq_splitOn (l : List Char) :
    ∀ acc : List Char,
      splitTokens l acc =
        ((l.splitOn ' ').modifyHead (fun h => acc.reverse ++ h)).filter
          (fun t => t ≠ []) := by
  induction l with
  | nil =>
      intro acc
      cases acc with
      | nil => simp [splitTokens, List.splitOn]
      | cons a as => simp [splitTokens, List.splitOn]
  | cons c rest ih =>
      intro acc
      obtain ⟨h0, t0, hsp⟩ : ∃ h0 t0, rest.splitOnP (· == ' ') = h0 :: t0 := by
        rcases e : rest.splitOnP (· == ' ') with _ | ⟨h0, t0⟩
        · exact absurd e (List.splitOnP_ne_nil _ rest)
        · exact ⟨h0, t0, rfl⟩
      by_cases hc : c = ' '
      · subst hc
        cases acc with
        | nil =>
            simp [splitTokens, List.splitOn, List.splitOnP_cons, ih [], hsp]
        | cons a as =>
            simp [splitTokens, List.splitOn, List.splitOnP_cons, ih [], hsp]
      · have hcb : (c == ' ') = false := by simp [hc]
        simp [splitTokens, hc, List.splitOn, List.splitOnP_cons, hcb,
              ih (c :: acc), hsp, List.append_assoc]

/-- The strtok loop started with an empty pending token computes exactly
the nonempty space-separated fields of the line. -/
theorem splitTokens_spec (l : List Char) : splitTokens l [] = spaceFields l := by
  have h := splitTokens_eq_splitOn l []
  have hid : ((l.splitOn ' ').modifyHead (fun h => List.reverse [] ++ h)) =
      l.splitOn ' ' := by
    cases e : l.splitOn ' ' with
    | nil => simp
    | cons a t => simp
  rw [h, hid, spaceFields]

/-- Claim C6 (counterexample): a tab is not a token separator for
`cmd_parse` — the delimiter set of the `strtok_r` call is the single space
character — so `"ls\t-la"` is parsed as the single token `"ls\t-la"`, not
as `["ls", "-la"]`, refuting "any whitespace characters acting as
separators". -/
theorem cmd_parse_tab_not_separator :
    cmd_parse 4096 (some "ls\t-la") = some [some "ls\t-la", none] ∧
    cmd_parse 4096 (some "ls\t-la") ≠ some [some "ls", some "-la", none] := by
  decide

/-- Claim C6 (amended): `cmd_parse` splits the line on the space character
only (no quoting or escaping, and no other whitespace acts as a
separator): the stored tokens are exactly the nonempty space-separated
fields, up to the argument-count bound, followed by the NULL sentinel.
Consequently `"  ls   -la  "` parses to `["ls", "-la"]` plus the sentinel,
and an empty or all-space line parses to a vector whose first element is
the sentinel. -/
theorem cmd_parse_space_split :
    (∀ (argMax : Nat) (s : String),
        cmd_parse argMax (some s) =
          some ((((spaceFields s.data).take (argMax - 1)).map
            (fun t => some (String.mk t))) ++ [none])) ∧
    cmd_parse 4096 (some "  ls   -la  ") = some [some "ls", some "-la", none] ∧
    cmd_parse 4096 (some "") = some [none] ∧
    cmd_parse 4096 (some "   ") = some [none] := by
  refine ⟨fun argMax s => ?_, by decide, by decide, by decide⟩
  simp only [cmd_parse, splitTokens_spec]

/-- Claim C9: for every line and every positive argument limit, `cmd_parse`
returns a vector that stores at most `argMax - 1` tokens (excess tokens are
truncated, never written past the bound), fits in the `argMax` slots the
code allocates, and ends with the NULL sentinel. -/
theorem cmd_parse_bounded (argMax : Nat) (s : String) (h : 1 ≤ argMax) :
    ∃ v, cmd_parse argMax (some s) = some v ∧
      (v.filter (fun e => e.isSome)).length ≤ argMax - 1 ∧
      v.length ≤ argMax ∧
      v.getLast? = some none := by
  refine ⟨_, rfl, ?_, ?_, ?_⟩
  · simp only [List.filter_append, List.length_append]
    have hnil : List.filter (fun e : Option String => e.isSome) [none] = [] := rfl
    have h2 := List.length_filter_le (fun e : Option String => e.isSome)
      (((splitTokens s.data []).take (argMax - 1)).map (fun t => some (String.mk t)))
    have h3 : (((splitTokens s.data []).take (argMax - 1)).map
        (fun t => some (String.mk t))).length ≤ argMax - 1 := by
      have hm : (argMax - 1) ⊓ (splitTokens s.data []).length ≤ argMax - 1 :=
        inf_le_left
      simp only [List.length_map, List.length_take]
      exact hm
    rw [hnil]
    simp only [List.length_nil]
    omega
  · simp only [List.length_append, List.length_map, List.length_take,
      List.length_singleton]
    have hm : (argMax - 1) ⊓ (splitTokens s.data []).length ≤ argMax - 1 :=
      inf_le_left
    omega
  · exact List.getLast?_concat _

/-- Witness for `cmd_parse_bounded` at `argMax = 3` and the five-token line
`"a b c d e"`: the hypothesis `1 ≤ 3` holds and the conclusion is
established by the theorem itself. -/
theorem cmd_parse_bounded_witness :
    1 ≤ 3 ∧ ∃ v, cmd_parse 3 (some "a b c d e") = some v ∧
      (v.filter (fun e => e.isSome)).length ≤ 3 - 1 ∧
      v.length ≤ 3 ∧
      v.getLast? = some none :=
  ⟨by decide, cmd_parse_bounded 3 "a b c d e" (by decide)⟩
